import Mathlib

/-!
Shallow embedding of the `ai_project_manager` repository (app.py,
gemini_client.py) used to check the natural-language specification.

The embedding models:
  - Python JSON values (`Json`) and the relevant behaviour of `json.loads`
    (`json_loads`, a fuel-based recursive-descent reading of a JSON text);
  - the Python string operations the code uses (`str.strip`, `str.replace`,
    `str.lower`, `str.startswith`, the `in` containment test);
  - the Gemini client adapter (`GeminiClient`, `get_mock_response`,
    `generate_response`, `get_gemini_client`);
  - the task store and the two reducers of app.py
    (`handle_task_generation`, `handle_task_verification`), the chat
    dispatch of `main` (`process_user_input`), and persistence
    (`save_project_data`).

External effects are made explicit: the clock readings are parameters
(`now`, `nowStr`), the network-backed completion call is a function
parameter `backend : String → String`, the storage file content is a
field of the state (`AppState.storage`, `none` when nothing has been
written this session).  An uncaught Python exception (e.g. a `TypeError`
on indexing a non-dict JSON value) is modelled by the reducers returning
`none`.
-/

set_option maxRecDepth 8000

namespace APM

/-- Python JSON values, as produced by `json.loads`. -/
inductive Json where
  | null : Json
  | bool (b : Bool) : Json
  | num (q : Rat) : Json
  | str (s : String) : Json
  | arr (xs : List Json) : Json
  | obj (kvs : List (String × Json)) : Json

/-! ### Python string primitives -/

/-- `isPrefixCh a b` is true when the char list `a` is a prefix of `b`. -/
def isPrefixCh : List Char → List Char → Bool
  | [], _ => true
  | _ :: _, [] => false
  | a :: as, b :: bs => a == b && isPrefixCh as bs

/-- `containsCh needle hay`: the char list `needle` occurs inside `hay`. -/
def containsCh (needle : List Char) : List Char → Bool
  | [] => needle.isEmpty
  | c :: rest => isPrefixCh needle (c :: rest) || containsCh needle rest

/-- Model of the Python containment test `needle in hay` on strings. -/
def pyIn (needle hay : String) : Bool := containsCh needle.data hay.data

/-- Model of Python `hay.startswith(pre)`. -/
def pyStartswith (pre hay : String) : Bool := isPrefixCh pre.data hay.data

/-- Worker for `pyReplace`; the fuel is an upper bound on the number of
recursion steps (one step consumes at least one character). -/
def replaceChFuel (old new : List Char) : Nat → List Char → List Char
  | 0, l => l
  | _ + 1, [] => []
  | fuel + 1, c :: rest =>
    if isPrefixCh old (c :: rest) && !old.isEmpty then
      new ++ replaceChFuel old new fuel (List.drop (old.length - 1) rest)
    else
      c :: replaceChFuel old new fuel rest

/-- Model of Python `s.replace(old, new)` for a non-empty `old`: replaces
every non-overlapping occurrence, scanning left to right. -/
def pyReplace (s old new : String) : String :=
  ⟨replaceChFuel old.data new.data s.data.length s.data⟩

/-- Whitespace stripped by Python `str.strip()`. -/
def pyWs (c : Char) : Bool :=
  c == ' ' || c == '\t' || c == '\n' || c == '\r' || c == '\x0b' || c == '\x0c'

def dropLeadingWs : List Char → List Char
  | [] => []
  | c :: r => if pyWs c then dropLeadingWs r else c :: r

/-- Model of Python `s.strip()`. -/
def pyStrip (s : String) : String :=
  ⟨(dropLeadingWs ((dropLeadingWs s.data).reverse)).reverse⟩

/-- Model of Python `s.lower()` (ASCII letters; all text the app
classifies on is ASCII). -/
def pyLower (s : String) : String := ⟨s.data.map Char.toLower⟩

/-! ### A model of `json.loads` -/

/-- JSON whitespace accepted between tokens by `json.loads`. -/
def skipWsJ : List Char → List Char
  | [] => []
  | c :: r => if c == ' ' || c == '\t' || c == '\n' || c == '\r' then skipWsJ r else c :: r

def hexVal (c : Char) : Option Nat :=
  if '0' ≤ c ∧ c ≤ '9' then some (c.toNat - 48)
  else if 'a' ≤ c ∧ c ≤ 'f' then some (c.toNat - 87)
  else if 'A' ≤ c ∧ c ≤ 'F' then some (c.toNat - 55)
  else none

/-- Body of a JSON string literal after the opening quote; returns the
decoded characters and the remainder after the closing quote. -/
def parseStringBody : Nat → List Char → Option (List Char × List Char)
  | 0, _ => none
  | _ + 1, [] => none
  | fuel + 1, c :: rest =>
    if c == '"' then some ([], rest)
    else if c == '\\' then
      match rest with
      | [] => none
      | e :: rest2 =>
        let dec : Option (Char × List Char) :=
          if e == '"' then some ('"', rest2)
          else if e == '\\' then some ('\\', rest2)
          else if e == '/' then some ('/', rest2)
          else if e == 'b' then some ('\x08', rest2)
          else if e == 'f' then some ('\x0c', rest2)
          else if e == 'n' then some ('\n', rest2)
          else if e == 'r' then some ('\r', rest2)
          else if e == 't' then some ('\t', rest2)
          else if e == 'u' then
            match rest2 with
            | h1 :: h2 :: h3 :: h4 :: rest3 =>
              match hexVal h1, hexVal h2, hexVal h3, hexVal h4 with
              | some a, some b, some c2, some d =>
                some (Char.ofNat (((a * 16 + b) * 16 + c2) * 16 + d), rest3)
              | _, _, _, _ => none
            | _ => none
          else none
        match dec with
        | none => none
        | some (ch, r2) =>
          match parseStringBody fuel r2 with
          | some (cs, r3) => some (ch :: cs, r3)
          | none => none
    else
      match parseStringBody fuel rest with
      | some (cs, r3) => some (c :: cs, r3)
      | none => none

def takeDigits : List Char → (List Char × List Char)
  | [] => ([], [])
  | c :: r =>
    if c.isDigit then
      let p := takeDigits r
      (c :: p.1, p.2)
    else ([], c :: r)

def digitsToNat (ds : List Char) : Nat :=
  ds.foldl (fun acc c => acc * 10 + (c.toNat - 48)) 0

/-- Exponent part of a JSON number, after the `e`/`E` marker. -/
def parseExpTail (l : List Char) : Option (Int × List Char) :=
  let p : Int × List Char :=
    match l with
    | '+' :: r => (1, r)
    | '-' :: r => (-1, r)
    | _ => (1, l)
  let d := takeDigits p.2
  if d.1.isEmpty then none else some (p.1 * (digitsToNat d.1 : Int), d.2)

def mkNum (neg : Bool) (ds fs : List Char) (e : Int) : Rat :=
  let mant : Rat := (digitsToNat ds : Nat) + ((digitsToNat fs : Nat) : Rat) / ((10 : Rat) ^ fs.length)
  let v := mant * (10 : Rat) ^ e
  if neg then -v else v

/-- A JSON number token (integer part, optional fraction, optional
exponent). -/
def parseNumber (l : List Char) : Option (Rat × List Char) :=
  let sp : Bool × List Char :=
    match l with
    | '-' :: r => (true, r)
    | _ => (false, l)
  let dp := takeDigits sp.2
  if dp.1.isEmpty then none
  else
    let hadDot : Bool := match dp.2 with | '.' :: _ => true | _ => false
    let fp : List Char × List Char :=
      match dp.2 with
      | '.' :: r => takeDigits r
      | _ => ([], dp.2)
    if hadDot && fp.1.isEmpty then none
    else
      match fp.2 with
      | 'e' :: r =>
        match parseExpTail r with
        | none => none
        | some (ex, l4) => some (mkNum sp.1 dp.1 fp.1 ex, l4)
      | 'E' :: r =>
        match parseExpTail r with
        | none => none
        | some (ex, l4) => some (mkNum sp.1 dp.1 fp.1 ex, l4)
      | _ => some (mkNum sp.1 dp.1 fp.1 0, fp.2)

mutual

/-- A JSON value; fuel-based recursive descent (structural on the fuel,
so the definition evaluates inside the kernel). -/
def parseValue : Nat → List Char → Option (Json × List Char)
  | 0, _ => none
  | fuel + 1, l =>
    match skipWsJ l with
    | [] => none
    | c :: rest =>
      if c == 'n' then
        if isPrefixCh ['u', 'l', 'l'] rest then some (Json.null, rest.drop 3) else none
      else if c == 't' then
        if isPrefixCh ['r', 'u', 'e'] rest then some (Json.bool true, rest.drop 3) else none
      else if c == 'f' then
        if isPrefixCh ['a', 'l', 's', 'e'] rest then some (Json.bool false, rest.drop 4) else none
      else if c == '"' then
        match parseStringBody (rest.length + 1) rest with
        | some (cs, r2) => some (Json.str ⟨cs⟩, r2)
        | none => none
      else if c == '[' then
        match skipWsJ rest with
        | ']' :: r2 => some (Json.arr [], r2)
        | r1 =>
          match parseItems fuel r1 with
          | some (xs, r2) => some (Json.arr xs, r2)
          | none => none
      else if c == '\x7b' then
        match skipWsJ rest with
        | '\x7d' :: r2 => some (Json.obj [], r2)
        | r1 =>
          match parseMembers fuel r1 with
          | some (ms, r2) => some (Json.obj ms, r2)
          | none => none
      else
        match parseNumber (c :: rest) with
        | some (q, r2) => some (Json.num q, r2)
        | none => none

/-- Comma-separated array items, consuming the closing bracket. -/
def parseItems : Nat → List Char → Option (List Json × List Char)
  | 0, _ => none
  | fuel + 1, l =>
    match parseValue fuel l with
    | none => none
    | some (j, r1) =>
      match skipWsJ r1 with
      | ',' :: r2 =>
        match parseItems fuel r2 with
        | some (xs, r3) => some (j :: xs, r3)
        | none => none
      | ']' :: r2 => some ([j], r2)
      | _ => none

/-- Comma-separated object members, consuming the closing brace. -/
def parseMembers : Nat → List Char → Option (List (String × Json) × List Char)
  | 0, _ => none
  | fuel + 1, l =>
    match skipWsJ l with
    | '"' :: r1 =>
      match parseStringBody (r1.length + 1) r1 with
      | none => none
      | some (k, r2) =>
        match skipWsJ r2 with
        | ':' :: r3 =>
          match parseValue fuel r3 with
          | none => none
          | some (v, r4) =>
            match skipWsJ r4 with
            | ',' :: r5 =>
              match parseMembers fuel r5 with
              | some (ms, r6) => some ((⟨k⟩, v) :: ms, r6)
              | none => none
            | '\x7d' :: r5 => some ([(⟨k⟩, v)], r5)
            | _ => none
        | _ => none
    | _ => none

end

/-- Model of Python `json.loads`: parse one JSON value and require that
only whitespace follows it. -/
def json_loads (s : String) : Option Json :=
  match parseValue (2 * s.data.length + 4) s.data with
  | some (j, rest) => if (skipWsJ rest).isEmpty then some j else none
  | none => none

/-! ### Python `repr`/`str`/truthiness on JSON values -/

/-- Rendering of a number inside `repr` output (the model prints integral
values the way Python prints ints; clock values are modelled as integers). -/
def reprRat (q : Rat) : String :=
  if q.den = 1 then toString q.num else toString q

mutual

/-- Model of Python `repr` on JSON-shaped values (dicts print their pairs
in insertion order, strings are single-quoted). -/
def pyRepr : Json → String
  | Json.null => "None"
  | Json.bool true => "True"
  | Json.bool false => "False"
  | Json.num q => reprRat q
  | Json.str s => "\x27" ++ s ++ "\x27"
  | Json.arr xs => "[" ++ pyReprItems xs ++ "]"
  | Json.obj kvs => "\x7b" ++ pyReprMembers kvs ++ "\x7d"

/-- Comma-separated `repr` of list items. -/
def pyReprItems : List Json → String
  | [] => ""
  | [x] => pyRepr x
  | x :: y :: r => pyRepr x ++ ", " ++ pyReprItems (y :: r)

/-- Comma-separated `repr` of dict members. -/
def pyReprMembers : List (String × Json) → String
  | [] => ""
  | [(k, v)] => "\x27" ++ k ++ "\x27: " ++ pyRepr v
  | (k, v) :: m :: r => "\x27" ++ k ++ "\x27: " ++ pyRepr v ++ ", " ++ pyReprMembers (m :: r)

end

/-- Model of Python `str` on JSON-shaped values (as used by f-strings):
a string renders as its own text, everything else as its `repr`. -/
def pyStr (j : Json) : String :=
  match j with
  | Json.str s => s
  | _ => pyRepr j

/-- Model of Python truthiness on JSON-shaped values. -/
def pyTruthy : Json → Bool
  | Json.null => false
  | Json.bool b => b
  | Json.num q => if q = 0 then false else true
  | Json.str s => !(s == "")
  | Json.arr xs => !xs.isEmpty
  | Json.obj kvs => !kvs.isEmpty

/-- Python dict lookup on the member list produced by `json.loads`
(with duplicate keys the last occurrence wins, as in `dict`). -/
def dictGet (kvs : List (String × Json)) (k : String) : Option Json :=
  (kvs.reverse.find? (fun kv => kv.1 == k)).map (fun kv => kv.2)

/-! ### Data model (app.py) -/

/-- A task record as built by `handle_task_generation` (app.py:206-212).
`description` and `prompt` hold whatever JSON values the backend reply
carried under the expected keys; `timestamp` is the `time.time()` reading,
modelled as an abstract integer clock value. -/
structure Task where
  id : Nat
  description : Json
  prompt : Json
  status : String
  timestamp : Nat

/-- A log record as built by `log_event` (app.py:286-293); `timestamp` is
the `time.strftime` text. -/
structure LogEntry where
  timestamp : String
  event : String
  details : Json

/-- The session state touched by the reducers: tasks, logs, chat history,
the one-shot notification, and the storage-file content (`none` while
nothing has been written in this session). -/
structure AppState where
  tasks : List Task
  logs : List LogEntry
  chat_history : List (String × String)
  notification : Option String
  storage : Option Json

def emptyState : AppState := ⟨[], [], [], none, none⟩

def natJson (n : Nat) : Json := Json.num (n : Rat)

/-- The JSON shape of a task dict, keys in insertion order (app.py:206-212). -/
def taskToJson (t : Task) : Json :=
  Json.obj [("id", natJson t.id), ("description", t.description), ("prompt", t.prompt),
            ("status", Json.str t.status), ("timestamp", natJson t.timestamp)]

/-- The JSON shape of a log dict (app.py:288-292). -/
def logToJson (e : LogEntry) : Json :=
  Json.obj [("timestamp", Json.str e.timestamp), ("event", Json.str e.event),
            ("details", e.details)]

/-- The storage-file object written by `save_project_data` (app.py:295-301). -/
def storageJson (tasks : List Task) (logs : List LogEntry) : Json :=
  Json.obj [("tasks", Json.arr (tasks.map taskToJson)),
            ("logs", Json.arr (logs.map logToJson))]

/-- `save_project_data`: the value the storage file holds after the save. -/
def save_project_data (tasks : List Task) (logs : List LogEntry) : Json :=
  storageJson tasks logs

/-- `storage.get(key, default)` on the loaded storage object (app.py:51-53). -/
def jsonGetD (j : Json) (k : String) (d : Json) : Json :=
  match j with
  | Json.obj kvs => (dictGet kvs k).getD d
  | _ => d

/-- Schema decoder: a JSON number that denotes a natural number. -/
def decodeNat (j : Json) : Option Nat :=
  match j with
  | Json.num q => if q.den = 1 ∧ 0 ≤ q.num then some q.num.toNat else none
  | _ => none

def decodeStr : Json → Option String
  | Json.str s => some s
  | _ => none

/-- Schema decoder for a task dict, inverse of `taskToJson` on the
defined schema. -/
def decodeTask (j : Json) : Option Task :=
  match j with
  | Json.obj kvs =>
    match dictGet kvs "id", dictGet kvs "description", dictGet kvs "prompt",
          dictGet kvs "status", dictGet kvs "timestamp" with
    | some i, some d, some p, some st, some ts =>
      match decodeNat i, decodeStr st, decodeNat ts with
      | some i2, some st2, some ts2 => some ⟨i2, d, p, st2, ts2⟩
      | _, _, _ => none
    | _, _, _, _, _ => none
  | _ => none

/-- Schema decoder for a log dict, inverse of `logToJson`. -/
def decodeLogEntry (j : Json) : Option LogEntry :=
  match j with
  | Json.obj kvs =>
    match dictGet kvs "timestamp", dictGet kvs "event", dictGet kvs "details" with
    | some ts, some ev, some d =>
      match decodeStr ts, decodeStr ev with
      | some ts2, some ev2 => some ⟨ts2, ev2, d⟩
      | _, _ => none
    | _, _, _ => none
  | _ => none

/-- Decode each element of a list, failing when any element fails. -/
def decodeEach {α : Type} (f : Json → Option α) : List Json → Option (List α)
  | [] => some []
  | x :: r =>
    match f x, decodeEach f r with
    | some a, some l => some (a :: l)
    | _, _ => none

/-- Decode a JSON array element-wise. -/
def decodeList {α : Type} (f : Json → Option α) : Json → Option (List α)
  | Json.arr xs => decodeEach f xs
  | _ => none

/-! ### Completion backend adapter (gemini_client.py) -/

def MOCK_TASK_JSON : String :=
  "\x7b\"task_description\": \"Mock task: Implement the user login page.\", \"coding_prompt\": \"Create a new Streamlit page for user login with username and password fields.\"\x7d"

def MOCK_VERIFY_JSON : String :=
  "\x7b\"verified\": true, \"feedback\": \"This looks great. Well done.\"\x7d"

def MOCK_GENERIC : String := "This is a generic mock response for other queries."

def MOCK_TASK_DESCRIPTION : String := "Mock task: Implement the user login page."

def MOCK_CODING_PROMPT : String :=
  "Create a new Streamlit page for user login with username and password fields."

def MOCK_FEEDBACK : String := "This looks great. Well done."

/-- The adapter; only the credential matters for the modelled behaviour. -/
structure GeminiClient where
  api_key : String

/-- `GeminiClient._get_mock_response` (gemini_client.py:33-47). -/
def get_mock_response (p : String) : String :=
  if pyIn "generate the next logical task" p then MOCK_TASK_JSON
  else if pyIn "A task was marked as completed" p then MOCK_VERIFY_JSON
  else MOCK_GENERIC

/-- `GeminiClient.generate_response` (gemini_client.py:20-31); `net` is
the network-backed completion call (already including the adapter's
conversion of transport errors to text). -/
def generate_response (c : GeminiClient) (net : String → String) (p : String) : String :=
  if c.api_key == "DUMMY_KEY_FOR_TESTING" then get_mock_response p else net p

/-- `GeminiClient.__init__` (gemini_client.py:10-18); the `ValueError`
is the `MissingCredential` failure of the spec. -/
def GeminiClient.init (api_key : String) : Except String GeminiClient :=
  if (api_key == "" || api_key == "YOUR_GEMINI_API_KEY")
      && api_key != "DUMMY_KEY_FOR_TESTING" then
    Except.error "Gemini API key is not configured."
  else Except.ok ⟨api_key⟩

/-- `get_gemini_client` (gemini_client.py:50-61); `env_key` models
`os.getenv("GEMINI_API_KEY")` (`none` when unset). -/
def get_gemini_client (api_key : String) (env_key : Option String) : Except String GeminiClient :=
  if api_key != "" then GeminiClient.init api_key
  else
    match env_key with
    | some k =>
      if k != "" then GeminiClient.init k
      else Except.error "API Key for Gemini not found or provided."
    | none => Except.error "API Key for Gemini not found or provided."

/-! ### Prompts and chat messages (app.py) -/

/-- `repr` of the session task list, as interpolated into f-strings. -/
def tasksRepr (ts : List Task) : String := pyRepr (Json.arr (ts.map taskToJson))

/-- The task-generation prompt (app.py:190-197). -/
def generation_prompt (ts : List Task) : String :=
  "\n    Based on the following project state (tasks and their status), generate the next logical task.\n    Project history: " ++
  tasksRepr ts ++
  "\n\n    Return a JSON object with two keys:\n    - \"task_description\": A clear and concise description of the new task.\n    - \"coding_prompt\": A detailed, actionable prompt for an executor AI to complete the task.\n    "

/-- The verification prompt (app.py:247-256). -/
def verification_prompt (ct : Task) (summary : String) : String :=
  "\n    A task was marked as completed. Verify if the user\x27s summary indicates successful completion.\n\n    Task Description: " ++
  pyStr ct.description ++
  "\n    Original Coding Prompt: " ++
  pyStr ct.prompt ++
  "\n    User\x27s Summary of Work: " ++
  summary ++
  "\n\n    Return a JSON object with \"verified\" (boolean) and \"feedback\" (string).\n    If not verified, provide a follow-up question or suggestion.\n    "

/-- The generic-chat prompt (app.py:173). -/
def generic_prompt (input : String) (ts : List Task) : String :=
  "User query: \x27" ++ input ++ "\x27. Previous context: " ++ tasksRepr ts

/-- The cleaning applied to a backend reply before `json.loads`
(app.py:203 and app.py:261). -/
def clean_response (r : String) : String :=
  pyReplace (pyReplace (pyStrip r) "```json" "") "```" ""

/-- Model of `str(json.JSONDecodeError)` interpolated into the error chat
message; the embedding abstracts CPython error positions to a fixed text. -/
def JSON_DECODE_ERROR_TEXT : String := "Expecting value"

/-- Model of `str(KeyError(k))`, which Python renders as the quoted key. -/
def keyErrorText (k : String) : String := "\x27" ++ k ++ "\x27"

/-- Error chat message of `handle_task_generation` (app.py:226). -/
def gen_parse_error_msg (e r : String) : String :=
  "Failed to parse AI response for task generation: " ++ e ++ "\n\nRaw response:\n" ++ r

/-- Error chat message of `handle_task_verification` (app.py:281). -/
def verify_parse_error_msg (e r : String) : String :=
  "Failed to parse AI verification response: " ++ e ++ "\n\nRaw response:\n" ++ r

/-- Success chat message of `handle_task_generation` (app.py:219). -/
def gen_success_msg (d p : Json) : String :=
  "**New Task Generated:** " ++ pyStr d ++ "\n\n**Prompt for Executor AI:**\n```\n" ++ pyStr p ++ "\n```"

/-- Chat message of the failed-verification branch (app.py:275). -/
def verify_failed_msg (fb : Json) : String :=
  "**Verification Failed:** " ++ pyStr fb ++ "\nPlease address the feedback and mark the task as \x27done\x27 again with more details."

def NO_PENDING_MSG : String := "There are no pending tasks to verify."

def DEFAULT_SUMMARY : String := "User marked task as done without providing a summary."

def NO_FEEDBACK_DEFAULT : String := "No specific feedback provided."

/-! ### The reducers (app.py) -/

def appendChat (s : AppState) (m : String × String) : AppState :=
  { s with chat_history := s.chat_history ++ [m] }

/-- The user summary used by `handle_task_verification` (app.py:243-245):
every occurrence of the substring "done" is removed (case-sensitively),
the result is stripped, and an empty result falls back to the fixed
placeholder. -/
def verification_user_summary (input : String) : String :=
  let u := pyStrip (pyReplace input "done" "")
  if u == "" then DEFAULT_SUMMARY else u

/-- The current pending task (app.py:235): first task with status
`pending`, in insertion order. -/
def firstPending (ts : List Task) : Option Task :=
  ts.find? (fun t => t.status == "pending")

/-- In-place mutation `current_task['status'] = 'verified'` on the task
object found by `firstPending` (app.py:265). -/
def setFirstPendingVerified : List Task → List Task
  | [] => []
  | t :: r =>
    if t.status == "pending" then { t with status := "verified" } :: r
    else t :: setFirstPendingVerified r

/-- `handle_task_generation` (app.py:186-229).  `backend` is
`gemini_client.generate_response`; `now`/`nowStr` are the clock readings
used for the task timestamp and the log timestamp.  Returns `none` when
the Python code would raise an uncaught exception (`TypeError` on
indexing a parsed non-dict reply). -/
def handle_task_generation (backend : String → String) (now : Nat) (nowStr : String)
    (s : AppState) : Option AppState :=
  let ai_response := backend (generation_prompt s.tasks)
  match json_loads (clean_response ai_response) with
  | none =>
    some (appendChat s ("assistant", gen_parse_error_msg JSON_DECODE_ERROR_TEXT ai_response))
  | some (Json.obj kvs) =>
    match dictGet kvs "task_description" with
    | none =>
      some (appendChat s ("assistant",
        gen_parse_error_msg (keyErrorText "task_description") ai_response))
    | some d =>
      match dictGet kvs "coding_prompt" with
      | none =>
        some (appendChat s ("assistant",
          gen_parse_error_msg (keyErrorText "coding_prompt") ai_response))
      | some p =>
        let new_task : Task := ⟨s.tasks.length + 1, d, p, "pending", now⟩
        let tasks2 := s.tasks ++ [new_task]
        let logs2 := s.logs ++
          [⟨nowStr, "Task Generated",
            Json.obj [("task_id", natJson new_task.id), ("description", d)]⟩]
        some { tasks := tasks2
               logs := logs2
               chat_history := s.chat_history ++ [("assistant", gen_success_msg d p)]
               notification := some "New task generated!"
               storage := some (save_project_data tasks2 logs2) }
  | some _ => none

/-- `handle_task_verification` (app.py:231-284).  Returns `none` when the
Python code would raise an uncaught exception (`AttributeError` on
calling `.get` on a parsed non-dict reply). -/
def handle_task_verification (user_input : String) (backend : String → String)
    (nowStr : String) (s : AppState) : Option AppState :=
  match firstPending s.tasks with
  | none => some (appendChat s ("assistant", NO_PENDING_MSG))
  | some ct =>
    let user_summary := verification_user_summary user_input
    let ai_response := backend (verification_prompt ct user_summary)
    match json_loads (clean_response ai_response) with
    | none =>
      some (appendChat s ("assistant",
        verify_parse_error_msg JSON_DECODE_ERROR_TEXT ai_response))
    | some (Json.obj kvs) =>
      if pyTruthy ((dictGet kvs "verified").getD Json.null) then
        let tasks2 := setFirstPendingVerified s.tasks
        let logs2 := s.logs ++
          [⟨nowStr, "Task Verified",
            Json.obj [("task_id", natJson ct.id), ("summary", Json.str user_summary)]⟩]
        let s2 : AppState :=
          { tasks := tasks2
            logs := logs2
            chat_history := s.chat_history
            notification := some ("Task \x27" ++ pyStr ct.description ++ "\x27 verified!")
            storage := some (save_project_data tasks2 logs2) }
        match dictGet kvs "feedback" with
        | some fb =>
          some (appendChat s2 ("assistant", "Great job! Task verified: " ++ pyStr fb))
        | none =>
          some (appendChat s2 ("assistant",
            verify_parse_error_msg (keyErrorText "feedback") ai_response))
      else
        let fb := (dictGet kvs "feedback").getD (Json.str NO_FEEDBACK_DEFAULT)
        let logs2 := s.logs ++
          [⟨nowStr, "Verification Failed",
            Json.obj [("task_id", natJson ct.id), ("summary", Json.str user_summary),
                      ("feedback", fb)]⟩]
        some { tasks := s.tasks
               logs := logs2
               chat_history := s.chat_history ++ [("assistant", verify_failed_msg fb)]
               notification := s.notification
               storage := some (save_project_data s.tasks logs2) }
    | some _ => none

/-- The chat-input dispatch of `main` (app.py:160-177), for the case
where a backend client is configured. -/
def process_user_input (input : String) (backend : String → String) (now : Nat)
    (nowStr : String) (s : AppState) : Option AppState :=
  let s0 := appendChat s ("user", input)
  if pyIn "what\x27s next" (pyLower input) then
    handle_task_generation backend now nowStr s0
  else if pyStartswith "done" (pyLower input) then
    handle_task_verification input backend nowStr s0
  else
    some (appendChat s0 ("assistant", backend (generic_prompt input s0.tasks)))

/-! ### Reducer call sequences -/

/-- One reducer invocation, with its external inputs (backend function and
clock readings). -/
inductive Op where
  | gen (backend : String → String) (now : Nat) (nowStr : String) : Op
  | verify (input : String) (backend : String → String) (nowStr : String) : Op

def applyOp (s : AppState) : Op → Option AppState
  | Op.gen b now ns => handle_task_generation b now ns s
  | Op.verify inp b ns => handle_task_verification inp b ns s

/-- Run a sequence of reducer calls; `none` as soon as one raises. -/
def runOps (s : AppState) : List Op → Option AppState
  | [] => some s
  | op :: ops =>
    match applyOp s op with
    | none => none
    | some s1 => runOps s1 ops

/-- Number of tasks with status `pending`. -/
def countPending (ts : List Task) : Nat :=
  ts.countP (fun t => t.status == "pending")

/-- States reachable from the empty task list when the caller respects the
convention of invoking generate-next-task only while no task is pending
(verify-completion may be invoked at any time). -/
inductive ReachableG : AppState → Prop where
  | init : ReachableG emptyState
  | gen (s s' : AppState) (b : String → String) (now : Nat) (ns : String) :
      ReachableG s → countPending s.tasks = 0 →
      handle_task_generation b now ns s = some s' → ReachableG s'
  | verify (s s' : AppState) (inp : String) (b : String → String) (ns : String) :
      ReachableG s → handle_task_verification inp b ns s = some s' → ReachableG s'

/-! ### Example data and spec-side comparison definitions -/

/-- A concrete pending task, used as a test fixture. -/
def exTask : Task :=
  ⟨1, Json.str "Implement login page", Json.str "Create login form", "pending", 3⟩

/-- A session holding exactly the one pending task `exTask` and an
untouched storage file. -/
def exStatePending : AppState := ⟨[exTask], [], [], none, none⟩

/-- A syntactically valid backend reply for verification that carries
`verified: true` but no `feedback` key. -/
def RESP_VERIFIED_NO_FEEDBACK : String := "\x7b\"verified\": true\x7d"

/-- The claim reading of the user summary, for comparison with the
code: the input after trimming the literal word "done" and surrounding
whitespace (the code instead removes every occurrence of the substring
"done" and then strips). -/
def claimed_user_summary (input : String) : String :=
  let t := pyStrip input
  if pyStartswith "done" t then pyStrip ⟨t.data.drop 4⟩ else t

/-- Tasks carry ids 1, 2, …, n in insertion order. -/
def idsOk (ts : List Task) : Prop :=
  ts.map (fun t => t.id) = List.range' 1 ts.length

/-! ### String containment lemmas -/

theorem isPrefixCh_self_append (l b : List Char) : isPrefixCh l (l ++ b) = true := by
  induction l with
  | nil => rfl
  | cons c r ih => simp [isPrefixCh, ih]

theorem containsCh_self_append (l b : List Char) : containsCh l (l ++ b) = true := by
  cases l with
  | nil =>
    cases b with
    | nil => rfl
    | cons c r => simp [containsCh, isPrefixCh]
  | cons c r =>
    simp only [containsCh, Bool.or_eq_true]
    left
    simpa [isPrefixCh] using isPrefixCh_self_append r b

theorem containsCh_of_suffix (l t a : List Char) (h : containsCh l t = true) :
    containsCh l (a ++ t) = true := by
  induction a with
  | nil => simpa using h
  | cons c r ih => simp [containsCh, ih]

theorem pyIn_middle (a x b : String) : pyIn x (a ++ x ++ b) = true := by
  unfold pyIn
  rw [String.data_append, String.data_append, List.append_assoc]
  exact containsCh_of_suffix _ _ _ (containsCh_self_append _ _)

theorem pyIn_suffix (a x : String) : pyIn x (a ++ x) = true := by
  have h := pyIn_middle a x ""
  rwa [String.append_empty] at h

/-! ### Task-counting and id lemmas -/

theorem countPending_setFPV (ts : List Task) :
    countPending (setFirstPendingVerified ts) ≤ countPending ts := by
  induction ts with
  | nil => simp [setFirstPendingVerified]
  | cons t r ih =>
    unfold setFirstPendingVerified
    by_cases h : t.status == "pending"
    · simp only [h, if_true, countPending, List.countP_cons]
      simp
    · simp only [h, if_false, Bool.false_eq_true, countPending, List.countP_cons]
      have : countPending (setFirstPendingVerified r) ≤ countPending r := ih
      unfold countPending at this
      omega

theorem mapId_setFPV (ts : List Task) :
    (setFirstPendingVerified ts).map (fun t => t.id) = ts.map (fun t => t.id) := by
  induction ts with
  | nil => rfl
  | cons t r ih =>
    unfold setFirstPendingVerified
    by_cases h : t.status == "pending"
    · simp [h]
    · simp [h, ih]

theorem length_setFPV (ts : List Task) :
    (setFirstPendingVerified ts).length = ts.length := by
  have h := congrArg List.length (mapId_setFPV ts)
  simpa using h

/-! ### Shape lemmas for the reducers -/

theorem handle_task_generation_tasks_shape (b : String → String) (now : Nat) (ns : String)
    (s s' : AppState) (h : handle_task_generation b now ns s = some s') :
    s'.tasks = s.tasks ∨
    ∃ d p, s'.tasks = s.tasks ++ [⟨s.tasks.length + 1, d, p, "pending", now⟩] := by
  unfold handle_task_generation at h
  dsimp only [] at h
  split at h
  · cases h
    left
    rfl
  · rename_i kvs
    split at h
    · cases h
      left
      rfl
    · rename_i d hd
      split at h
      · cases h
        left
        rfl
      · rename_i p hp
        cases h
        right
        exact ⟨d, p, rfl⟩
  · cases h

theorem handle_task_verification_tasks_shape (inp : String) (b : String → String) (ns : String)
    (s s' : AppState) (h : handle_task_verification inp b ns s = some s') :
    s'.tasks = s.tasks ∨ s'.tasks = setFirstPendingVerified s.tasks := by
  unfold handle_task_verification at h
  dsimp only [] at h
  split at h
  · cases h
    left
    rfl
  · rename_i ct hct
    split at h
    · cases h
      left
      rfl
    · rename_i kvs hkvs
      split at h
      · split at h
        · cases h
          right
          rfl
        · cases h
          right
          rfl
      · cases h
        left
        rfl
    · cases h

/-! ### Invariant machinery over reducer sequences -/

theorem idsOk_append_pending (ts : List Task) (d p : Json) (now : Nat) (h : idsOk ts) :
    idsOk (ts ++ [⟨ts.length + 1, d, p, "pending", now⟩]) := by
  unfold idsOk at h ⊢
  rw [List.map_append, h, List.length_append]
  simp [List.range'_concat, Nat.add_comm]

theorem idsOk_setFPV (ts : List Task) (h : idsOk ts) :
    idsOk (setFirstPendingVerified ts) := by
  unfold idsOk at h ⊢
  rw [mapId_setFPV, length_setFPV]
  exact h

theorem idsOk_applyOp (s s' : AppState) (op : Op) (h : applyOp s op = some s')
    (h0 : idsOk s.tasks) : idsOk s'.tasks := by
  cases op with
  | gen b now ns =>
    rcases handle_task_generation_tasks_shape b now ns s s' h with he | ⟨d, p, he⟩
    · rw [he]; exact h0
    · rw [he]; exact idsOk_append_pending _ d p now h0
  | verify inp b ns =>
    rcases handle_task_verification_tasks_shape inp b ns s s' h with he | he
    · rw [he]; exact h0
    · rw [he]; exact idsOk_setFPV _ h0

theorem idsOk_runOps (ops : List Op) : ∀ s s' : AppState,
    idsOk s.tasks → runOps s ops = some s' → idsOk s'.tasks := by
  induction ops with
  | nil =>
    intro s s' h0 h
    unfold runOps at h
    cases h
    exact h0
  | cons op ops ih =>
    intro s s' h0 h
    unfold runOps at h
    cases ha : applyOp s op with
    | none => rw [ha] at h; cases h
    | some s1 =>
      rw [ha] at h
      exact ih s1 s' (idsOk_applyOp s s1 op ha h0) h

theorem idsOk_pairwise (ts : List Task) (h : idsOk ts) :
    List.Pairwise (· < ·) (ts.map (fun t => t.id)) := by
  rw [h]
  exact List.pairwise_lt_range' 1 ts.length

/-! ### Serialization round-trip lemmas -/

theorem decodeNat_natJson (n : Nat) : decodeNat (natJson n) = some n := by
  simp [decodeNat, natJson, Rat.den_natCast, Rat.num_natCast, Int.toNat_natCast]

theorem decodeTask_taskToJson (t : Task) : decodeTask (taskToJson t) = some t := by
  cases t with
  | mk i d p st ts =>
    have h : decodeTask (taskToJson ⟨i, d, p, st, ts⟩) =
        match decodeNat (natJson i), decodeNat (natJson ts) with
        | some i2, some ts2 => some ⟨i2, d, p, st, ts2⟩
        | _, _ => none := rfl
    rw [h, decodeNat_natJson, decodeNat_natJson]

theorem decodeLogEntry_logToJson (e : LogEntry) : decodeLogEntry (logToJson e) = some e := by
  cases e
  rfl

theorem decodeEach_decodeTask (ts : List Task) :
    decodeEach decodeTask (ts.map taskToJson) = some ts := by
  induction ts with
  | nil => rfl
  | cons t r ih => simp [decodeEach, decodeTask_taskToJson, ih]

theorem decodeEach_decodeLogEntry (ls : List LogEntry) :
    decodeEach decodeLogEntry (ls.map logToJson) = some ls := by
  induction ls with
  | nil => rfl
  | cons e r ih => simp [decodeEach, decodeLogEntry_logToJson, ih]

/-! ### Claim theorems -/

/-- Claim C9: for every task list and log list expressible in the defined
schema, writing the task store with `save_project_data` and reading the
`tasks` and `logs` entries back from the resulting storage object yields
the same ordered lists, element by element (serialization is lossless for
the schema; the byte-level `json.dump`/`json.load` pair is the external
primitive the spec excludes, modelled as the identity on the JSON tree). -/
theorem c9_storage_roundtrip :
    ∀ (tasks : List Task) (logs : List LogEntry),
      decodeList decodeTask (jsonGetD (save_project_data tasks logs) "tasks" (Json.arr [])) =
        some tasks ∧
      decodeList decodeLogEntry (jsonGetD (save_project_data tasks logs) "logs" (Json.arr [])) =
        some logs := by
  intro tasks logs
  constructor
  · have h : jsonGetD (save_project_data tasks logs) "tasks" (Json.arr []) =
        Json.arr (tasks.map taskToJson) := rfl
    rw [h]
    exact decodeEach_decodeTask tasks
  · have h : jsonGetD (save_project_data tasks logs) "logs" (Json.arr []) =
        Json.arr (logs.map logToJson) := rfl
    rw [h]
    exact decodeEach_decodeLogEntry logs

/-- Claim C4: with no pending task (including the empty list),
verify-completion performs no reducer work: tasks, logs, notification
and storage are unchanged, the backend is never consulted (the result is
identical for any two backends), and the reply is the fixed
nothing-to-verify assistant message. -/
theorem c4_verify_no_pending_noop :
    ∀ (inp ns : String) (s : AppState), firstPending s.tasks = none →
      ∀ b b2 : String → String,
        handle_task_verification inp b ns s =
          some (appendChat s ("assistant", NO_PENDING_MSG)) ∧
        handle_task_verification inp b ns s = handle_task_verification inp b2 ns s ∧
        (appendChat s ("assistant", NO_PENDING_MSG)).tasks = s.tasks ∧
        (appendChat s ("assistant", NO_PENDING_MSG)).logs = s.logs ∧
        (appendChat s ("assistant", NO_PENDING_MSG)).storage = s.storage := by
  intro inp ns s h b b2
  unfold handle_task_verification
  rw [h]
  exact ⟨rfl, rfl, rfl, rfl, rfl⟩

/-- Witness for C4 at the empty session. -/
theorem c4_witness :
    handle_task_verification "done" (fun _ => "a") "t" emptyState =
      some (appendChat emptyState ("assistant", NO_PENDING_MSG)) ∧
    handle_task_verification "done" (fun _ => "a") "t" emptyState =
      handle_task_verification "done" (fun _ => "b") "t" emptyState :=
  ⟨(c4_verify_no_pending_noop "done" "t" emptyState rfl (fun _ => "a") (fun _ => "b")).1,
   (c4_verify_no_pending_noop "done" "t" emptyState rfl (fun _ => "a") (fun _ => "b")).2.1⟩

/-- Claim C5: with the sentinel mock credential the adapter is a pure
function of the prompt that never consults the network function; prompts
containing the generation pattern get the fixed task JSON (whose parsed
object carries exactly the two fixed strings under the expected keys),
otherwise prompts containing the verification pattern get the fixed
verified-true payload, and every other prompt gets the fixed generic
string. -/
theorem c5_mock_mode_deterministic :
    ∀ p : String,
      (∀ net : String → String,
          generate_response ⟨"DUMMY_KEY_FOR_TESTING"⟩ net p = get_mock_response p) ∧
      (pyIn "generate the next logical task" p = true →
          get_mock_response p = MOCK_TASK_JSON ∧
          json_loads MOCK_TASK_JSON =
            some (Json.obj [("task_description", Json.str MOCK_TASK_DESCRIPTION),
                            ("coding_prompt", Json.str MOCK_CODING_PROMPT)])) ∧
      (pyIn "generate the next logical task" p = false →
          pyIn "A task was marked as completed" p = true →
          get_mock_response p = MOCK_VERIFY_JSON ∧
          json_loads MOCK_VERIFY_JSON =
            some (Json.obj [("verified", Json.bool true),
                            ("feedback", Json.str MOCK_FEEDBACK)])) ∧
      (pyIn "generate the next logical task" p = false →
          pyIn "A task was marked as completed" p = false →
          get_mock_response p = MOCK_GENERIC) := by
  intro p
  refine ⟨fun net => rfl, fun h => ⟨?_, rfl⟩, fun h1 h2 => ⟨?_, rfl⟩, fun h1 h2 => ?_⟩
  · simp [get_mock_response, h]
  · simp [get_mock_response, h1, h2]
  · simp [get_mock_response, h1, h2]

/-- Witness for C5 on one concrete prompt from each class. -/
theorem c5_witness :
    get_mock_response "Please generate the next logical task now." = MOCK_TASK_JSON ∧
    get_mock_response "Hi. A task was marked as completed today." = MOCK_VERIFY_JSON ∧
    get_mock_response "hello" = MOCK_GENERIC :=
  ⟨((c5_mock_mode_deterministic "Please generate the next logical task now.").2.1
      (by decide)).1,
   ((c5_mock_mode_deterministic "Hi. A task was marked as completed today.").2.2.1
      (by decide) (by decide)).1,
   (c5_mock_mode_deterministic "hello").2.2.2 (by decide) (by decide)⟩

/-- Claim C6: chat dispatch with a configured backend: a lower-cased
containment of the what-is-next pattern triggers generation; otherwise a
lower-cased "done" prefix triggers verification; otherwise the input is
forwarded verbatim, together with the repr of the full task list, to the
backend for a generic reply appended as the assistant message. -/
theorem c6_dispatch_rules :
    ∀ (input : String) (b : String → String) (now : Nat) (ns : String) (s : AppState),
      (pyIn "what\x27s next" (pyLower input) = true →
          process_user_input input b now ns s =
            handle_task_generation b now ns (appendChat s ("user", input))) ∧
      (pyIn "what\x27s next" (pyLower input) = false →
          pyStartswith "done" (pyLower input) = true →
          process_user_input input b now ns s =
            handle_task_verification input b ns (appendChat s ("user", input))) ∧
      (pyIn "what\x27s next" (pyLower input) = false →
          pyStartswith "done" (pyLower input) = false →
          process_user_input input b now ns s =
            some (appendChat (appendChat s ("user", input))
              ("assistant", b (generic_prompt input s.tasks))) ∧
          pyIn input (generic_prompt input s.tasks) = true ∧
          pyIn (tasksRepr s.tasks) (generic_prompt input s.tasks) = true) := by
  intro input b now ns s
  refine ⟨fun h1 => ?_, fun h1 h2 => ?_, fun h1 h2 => ⟨?_, ?_, ?_⟩⟩
  · simp [process_user_input, h1]
  · simp [process_user_input, h1, h2]
  · simp [process_user_input, h1, h2]
    rfl
  · unfold generic_prompt
    rw [String.append_assoc ("User query: \x27" ++ input) "\x27. Previous context: "
      (tasksRepr s.tasks)]
    exact pyIn_middle "User query: \x27" input
      ("\x27. Previous context: " ++ tasksRepr s.tasks)
  · exact pyIn_suffix ("User query: \x27" ++ input ++ "\x27. Previous context: ")
      (tasksRepr s.tasks)

/-- Witness for C6 on a generic input at the empty session. -/
theorem c6_witness :
    process_user_input "hello" (fun _ => "pong") 1 "t" emptyState =
      some (appendChat (appendChat emptyState ("user", "hello")) ("assistant", "pong")) ∧
    pyIn "hello" (generic_prompt "hello" emptyState.tasks) = true :=
  ⟨((c6_dispatch_rules "hello" (fun _ => "pong") 1 "t" emptyState).2.2
      (by decide) (by decide)).1,
   ((c6_dispatch_rules "hello" (fun _ => "pong") 1 "t" emptyState).2.2
      (by decide) (by decide)).2.1⟩

/-- Claim C10: an input matching both textual rules (for example
"done, what's next") is dispatched to generate-next-task, never to
verify-completion: the containment rule is checked first. -/
theorem c10_whats_next_precedence :
    ∀ (input : String) (b : String → String) (now : Nat) (ns : String) (s : AppState),
      pyIn "what\x27s next" (pyLower input) = true →
      pyStartswith "done" (pyLower input) = true →
      process_user_input input b now ns s =
        handle_task_generation b now ns (appendChat s ("user", input)) := by
  intro input b now ns s h1 _h2
  simp [process_user_input, h1]

/-- Witness for C10 at the input that matches both rules. -/
theorem c10_witness :
    process_user_input "done, what\x27s next" (fun _ => "x") 1 "t" emptyState =
      handle_task_generation (fun _ => "x") 1 "t"
        (appendChat emptyState ("user", "done, what\x27s next")) ∧
    pyStartswith "done" (pyLower "done, what\x27s next") = true :=
  ⟨c10_whats_next_precedence "done, what\x27s next" (fun _ => "x") 1 "t" emptyState
      (by decide) (by decide),
   by decide⟩

/-- Claim C8: credential resolution of the adapter factory: a non-empty
explicit key is always used and the environment is not consulted; with no
explicit key a non-empty environment value supplies the credential; with
neither, the factory raises the missing-credential error.  The last
conjunct characterises exactly when the constructor itself rejects the
selected key. -/
theorem c8_credential_resolution :
    ∀ (key : String) (env : Option String),
      (key ≠ "" → get_gemini_client key env = GeminiClient.init key) ∧
      (key = "" → ∀ k, env = some k → k ≠ "" →
          get_gemini_client key env = GeminiClient.init k) ∧
      (key = "" → (env = none ∨ env = some "") →
          get_gemini_client key env =
            Except.error "API Key for Gemini not found or provided.") ∧
      (∀ k2 : String,
          GeminiClient.init k2 = Except.error "Gemini API key is not configured." ↔
          (k2 = "" ∨ k2 = "YOUR_GEMINI_API_KEY") ∧ k2 ≠ "DUMMY_KEY_FOR_TESTING") := by
  intro key env
  refine ⟨fun h => ?_, fun h k he hk => ?_, fun h he => ?_, fun k2 => ?_⟩
  · simp [get_gemini_client, h]
  · subst h
    subst he
    simp [get_gemini_client, hk]
  · subst h
    rcases he with he | he <;> subst he <;> rfl
  · unfold GeminiClient.init
    by_cases h1 : k2 = "DUMMY_KEY_FOR_TESTING"
    · subst h1
      simp
    · by_cases h2 : k2 = ""
      · subst h2
        simp
      · by_cases h3 : k2 = "YOUR_GEMINI_API_KEY"
        · subst h3
          simp
        · simp [h1, h2, h3]

/-- Witness for C8 on the three credential situations. -/
theorem c8_witness :
    get_gemini_client "k1" (some "e1") = GeminiClient.init "k1" ∧
    get_gemini_client "" (some "e1") = GeminiClient.init "e1" ∧
    get_gemini_client "" none = Except.error "API Key for Gemini not found or provided." ∧
    (GeminiClient.init "" = Except.error "Gemini API key is not configured." ↔
      (("" : String) = "" ∨ ("" : String) = "YOUR_GEMINI_API_KEY") ∧
        ("" : String) ≠ "DUMMY_KEY_FOR_TESTING") :=
  ⟨(c8_credential_resolution "k1" (some "e1")).1 (by decide),
   (c8_credential_resolution "" (some "e1")).2.1 rfl "e1" rfl (by decide),
   (c8_credential_resolution "" none).2.2.1 rfl (Or.inl rfl),
   (c8_credential_resolution "" none).2.2.2 ""⟩

/-- Claim C2 (amended): along every sequence of reducer calls from the
empty task list in which generate-next-task is only invoked while no task
is pending, every reachable state has at most one pending task: a guarded
generation appends one pending task (or leaves the list unchanged on
parse failure), and verification only ever flips the first pending task
to verified. -/
theorem c2_at_most_one_pending (s : AppState) (h : ReachableG s) :
    countPending s.tasks ≤ 1 := by
  induction h with
  | init => simp [emptyState, countPending]
  | gen s1 s2 b now ns _hr h0 hstep ih =>
    rcases handle_task_generation_tasks_shape b now ns s1 s2 hstep with he | ⟨d, p, he⟩
    · rw [he]
      omega
    · rw [he]
      unfold countPending at h0 ⊢
      rw [List.countP_append, h0]
      simp [List.countP_cons]
  | verify s1 s2 inp b ns _hr hstep ih =>
    rcases handle_task_verification_tasks_shape inp b ns s1 s2 hstep with he | he
    · rw [he]
      exact ih
    · rw [he]
      exact le_trans (countPending_setFPV s1.tasks) ih

/-- Counterexample to C2 as stated: the generation reducer never checks
for an existing pending task, so two successful mock-backed generate
calls from the empty list leave two pending tasks. -/
theorem c2_counterexample :
    (runOps emptyState [Op.gen (fun _ => MOCK_TASK_JSON) 1 "t1",
                        Op.gen (fun _ => MOCK_TASK_JSON) 2 "t2"]).map
        (fun s => countPending s.tasks) = some 2 ∧
    (runOps emptyState [Op.gen (fun _ => MOCK_TASK_JSON) 1 "t1",
                        Op.gen (fun _ => MOCK_TASK_JSON) 2 "t2"]).map
        (fun s => decide (countPending s.tasks ≤ 1)) = some false :=
  ⟨rfl, rfl⟩

/-- Witness for C2 at the initial reachable state. -/
theorem c2_witness : countPending emptyState.tasks ≤ 1 :=
  c2_at_most_one_pending emptyState ReachableG.init

/-- Claim C3: a backend reply parsing as a JSON object carrying both
expected keys makes generate-next-task append exactly one new pending
task whose id is the prior count plus one, whose description and prompt
are the reply values and whose timestamp is the clock reading, leaving
the pre-existing tasks unchanged, persisting the store and emitting a log
entry and a notification; and along any reducer sequence from the empty
list the stored ids are 1..n in insertion order, hence strictly
increasing over successive appends. -/
theorem c3_generation_success_and_ids :
    (∀ (b : String → String) (now : Nat) (ns : String) (s : AppState)
        (kvs : List (String × Json)) (d p : Json),
        json_loads (clean_response (b (generation_prompt s.tasks))) = some (Json.obj kvs) →
        dictGet kvs "task_description" = some d →
        dictGet kvs "coding_prompt" = some p →
        handle_task_generation b now ns s = some
          { tasks := s.tasks ++ [⟨s.tasks.length + 1, d, p, "pending", now⟩]
            logs := s.logs ++ [⟨ns, "Task Generated",
              Json.obj [("task_id", natJson (s.tasks.length + 1)), ("description", d)]⟩]
            chat_history := s.chat_history ++ [("assistant", gen_success_msg d p)]
            notification := some "New task generated!"
            storage := some (save_project_data
              (s.tasks ++ [⟨s.tasks.length + 1, d, p, "pending", now⟩])
              (s.logs ++ [⟨ns, "Task Generated",
                Json.obj [("task_id", natJson (s.tasks.length + 1)), ("description", d)]⟩])) }) ∧
    (∀ (ops : List Op) (s' : AppState), runOps emptyState ops = some s' →
        s'.tasks.map (fun t => t.id) = List.range' 1 s'.tasks.length ∧
        List.Pairwise (· < ·) (s'.tasks.map (fun t => t.id))) := by
  constructor
  · intro b now ns s kvs d p h1 h2 h3
    simp only [handle_task_generation, h1, h2, h3]
  · intro ops s' h
    have hi := idsOk_runOps ops emptyState s' rfl h
    exact ⟨hi, idsOk_pairwise s'.tasks hi⟩

/-- Witness for C3: one successful mock-backed generation from the empty
session. -/
theorem c3_witness :
    handle_task_generation (fun _ => MOCK_TASK_JSON) 5 "t" emptyState = some
      { tasks := [⟨1, Json.str MOCK_TASK_DESCRIPTION, Json.str MOCK_CODING_PROMPT, "pending", 5⟩]
        logs := [⟨"t", "Task Generated",
          Json.obj [("task_id", natJson 1), ("description", Json.str MOCK_TASK_DESCRIPTION)]⟩]
        chat_history := [("assistant",
          gen_success_msg (Json.str MOCK_TASK_DESCRIPTION) (Json.str MOCK_CODING_PROMPT))]
        notification := some "New task generated!"
        storage := some (save_project_data
          [⟨1, Json.str MOCK_TASK_DESCRIPTION, Json.str MOCK_CODING_PROMPT, "pending", 5⟩]
          [⟨"t", "Task Generated",
            Json.obj [("task_id", natJson 1), ("description", Json.str MOCK_TASK_DESCRIPTION)]⟩]) } :=
  c3_generation_success_and_ids.1 (fun _ => MOCK_TASK_JSON) 5 "t" emptyState
    [("task_description", Json.str MOCK_TASK_DESCRIPTION),
     ("coding_prompt", Json.str MOCK_CODING_PROMPT)]
    (Json.str MOCK_TASK_DESCRIPTION) (Json.str MOCK_CODING_PROMPT) rfl rfl rfl

/-- Claim C1 (amended): a reply that does not parse as JSON (after
stripping code fences) leaves both reducers' task list, logs, storage and
notification unchanged and appends a chat message carrying the raw reply
and the parse error; generate-next-task behaves the same when the reply
parses as an object missing an expected key.  Verify-completion, however,
reads parsed objects with dict.get: the last conjunct records that a
verified-true object with no feedback key flips the pending task and
writes storage before the key error surfaces. -/
theorem c1_malformed_reply_handling :
    (∀ (s : AppState) (m : String × String),
        (appendChat s m).tasks = s.tasks ∧ (appendChat s m).logs = s.logs ∧
        (appendChat s m).storage = s.storage ∧
        (appendChat s m).notification = s.notification) ∧
    (∀ (b : String → String) (now : Nat) (ns : String) (s : AppState),
        json_loads (clean_response (b (generation_prompt s.tasks))) = none →
        handle_task_generation b now ns s = some (appendChat s ("assistant",
          gen_parse_error_msg JSON_DECODE_ERROR_TEXT (b (generation_prompt s.tasks))))) ∧
    (∀ (b : String → String) (now : Nat) (ns : String) (s : AppState)
        (kvs : List (String × Json)),
        json_loads (clean_response (b (generation_prompt s.tasks))) = some (Json.obj kvs) →
        dictGet kvs "task_description" = none →
        handle_task_generation b now ns s = some (appendChat s ("assistant",
          gen_parse_error_msg (keyErrorText "task_description") (b (generation_prompt s.tasks))))) ∧
    (∀ (b : String → String) (now : Nat) (ns : String) (s : AppState)
        (kvs : List (String × Json)) (d : Json),
        json_loads (clean_response (b (generation_prompt s.tasks))) = some (Json.obj kvs) →
        dictGet kvs "task_description" = some d →
        dictGet kvs "coding_prompt" = none →
        handle_task_generation b now ns s = some (appendChat s ("assistant",
          gen_parse_error_msg (keyErrorText "coding_prompt") (b (generation_prompt s.tasks))))) ∧
    (∀ (inp : String) (b : String → String) (ns : String) (s : AppState) (ct : Task),
        firstPending s.tasks = some ct →
        json_loads (clean_response
            (b (verification_prompt ct (verification_user_summary inp)))) = none →
        handle_task_verification inp b ns s = some (appendChat s ("assistant",
          verify_parse_error_msg JSON_DECODE_ERROR_TEXT
            (b (verification_prompt ct (verification_user_summary inp)))))) ∧
    (∀ r e : String,
        pyIn r (gen_parse_error_msg e r) = true ∧ pyIn e (gen_parse_error_msg e r) = true ∧
        pyIn r (verify_parse_error_msg e r) = true ∧
        pyIn e (verify_parse_error_msg e r) = true) ∧
    (∀ (inp : String) (b : String → String) (ns : String) (s : AppState) (ct : Task)
        (kvs : List (String × Json)),
        firstPending s.tasks = some ct →
        json_loads (clean_response
            (b (verification_prompt ct (verification_user_summary inp)))) =
          some (Json.obj kvs) →
        pyTruthy ((dictGet kvs "verified").getD Json.null) = true →
        dictGet kvs "feedback" = none →
        (handle_task_verification inp b ns s).map (fun s2 => s2.tasks) =
          some (setFirstPendingVerified s.tasks) ∧
        (handle_task_verification inp b ns s).map (fun s2 => s2.storage.isSome) =
          some true) := by
  refine ⟨fun s m => ⟨rfl, rfl, rfl, rfl⟩, ?_, ?_, ?_, ?_, ?_, ?_⟩
  · intro b now ns s h1
    simp only [handle_task_generation, h1]
  · intro b now ns s kvs h1 h2
    simp only [handle_task_generation, h1, h2]
  · intro b now ns s kvs d h1 h2 h3
    simp only [handle_task_generation, h1, h2, h3]
  · intro inp b ns s ct h1 h2
    simp only [handle_task_verification, h1, h2]
  · intro r e
    refine ⟨?_, ?_, ?_, ?_⟩
    · exact pyIn_suffix ("Failed to parse AI response for task generation: " ++ e ++
        "\n\nRaw response:\n") r
    · unfold gen_parse_error_msg
      rw [String.append_assoc
        ("Failed to parse AI response for task generation: " ++ e) "\n\nRaw response:\n" r]
      exact pyIn_middle "Failed to parse AI response for task generation: " e
        ("\n\nRaw response:\n" ++ r)
    · exact pyIn_suffix ("Failed to parse AI verification response: " ++ e ++
        "\n\nRaw response:\n") r
    · unfold verify_parse_error_msg
      rw [String.append_assoc
        ("Failed to parse AI verification response: " ++ e) "\n\nRaw response:\n" r]
      exact pyIn_middle "Failed to parse AI verification response: " e
        ("\n\nRaw response:\n" ++ r)
  · intro inp b ns s ct kvs h1 h2 h3 h4
    simp only [handle_task_verification, h1, h2, h3, h4, if_true]
    exact ⟨rfl, rfl⟩

/-- Counterexample to C1 as stated: the reply parses as JSON but lacks
the feedback key, yet verify-completion flips the pending task to
verified and writes the storage file instead of leaving them unchanged. -/
theorem c1_counterexample :
    (handle_task_verification "done x" (fun _ => RESP_VERIFIED_NO_FEEDBACK) "ts"
        exStatePending).map
        (fun s => (s.tasks.map (fun t => t.status), s.storage.isSome)) =
      some (["verified"], true) ∧
    ¬ ((handle_task_verification "done x" (fun _ => RESP_VERIFIED_NO_FEEDBACK) "ts"
        exStatePending).map
        (fun s => (s.tasks.map (fun t => t.status), s.storage.isSome)) =
      some (exStatePending.tasks.map (fun t => t.status), exStatePending.storage.isSome)) :=
  ⟨rfl, by decide⟩

/-- Witness for C1 on a non-JSON reply to generation. -/
theorem c1_witness :
    handle_task_generation (fun _ => "not json") 1 "t" emptyState =
      some (appendChat emptyState ("assistant",
        gen_parse_error_msg JSON_DECODE_ERROR_TEXT "not json")) ∧
    pyIn "not json" (gen_parse_error_msg JSON_DECODE_ERROR_TEXT "not json") = true :=
  ⟨c1_malformed_reply_handling.2.1 (fun _ => "not json") 1 "t" emptyState rfl,
   (c1_malformed_reply_handling.2.2.2.2.2.1 "not json" JSON_DECODE_ERROR_TEXT).1⟩

/-- Counterexample to C7 as stated: for the input "done redone" the code
removes every occurrence of the substring "done" before stripping,
yielding the summary "re", while trimming the literal word "done" and
surrounding whitespace would leave "redone". -/
theorem c7_counterexample :
    verification_user_summary "done redone" = "re" ∧
    claimed_user_summary "done redone" = "redone" ∧
    ¬ verification_user_summary "done redone" = claimed_user_summary "done redone" :=
  ⟨rfl, rfl, by decide⟩

/-- Claim C7 (amended): the verification prompt embeds the pending
task's description, its original coding prompt and the user summary,
where the summary is the input with every occurrence of the substring
"done" removed and surrounding whitespace stripped, falling back to the
fixed placeholder exactly when that result is empty. -/
theorem c7_verification_prompt_contents :
    (∀ (ct : Task) (summary : String),
        pyIn (pyStr ct.description) (verification_prompt ct summary) = true ∧
        pyIn (pyStr ct.prompt) (verification_prompt ct summary) = true ∧
        pyIn summary (verification_prompt ct summary) = true) ∧
    (∀ inp : String, pyStrip (pyReplace inp "done" "") = "" →
        verification_user_summary inp = DEFAULT_SUMMARY) ∧
    (∀ inp : String, pyStrip (pyReplace inp "done" "") ≠ "" →
        verification_user_summary inp = pyStrip (pyReplace inp "done" "")) := by
  refine ⟨fun ct summary => ⟨?_, ?_, ?_⟩, fun inp h => ?_, fun inp h => ?_⟩
  · unfold verification_prompt pyIn
    simp only [String.data_append, List.append_assoc]
    apply containsCh_of_suffix
    exact containsCh_self_append _ _
  · unfold verification_prompt pyIn
    simp only [String.data_append, List.append_assoc]
    apply containsCh_of_suffix
    apply containsCh_of_suffix
    apply containsCh_of_suffix
    exact containsCh_self_append _ _
  · unfold verification_prompt pyIn
    simp only [String.data_append, List.append_assoc]
    apply containsCh_of_suffix
    apply containsCh_of_suffix
    apply containsCh_of_suffix
    apply containsCh_of_suffix
    apply containsCh_of_suffix
    exact containsCh_self_append _ _
  · simp [verification_user_summary, h]
  · simp [verification_user_summary, h]

/-- Witness for C7: the all-whitespace-after-removal input falls back to
the placeholder, and the summary always occurs in the prompt. -/
theorem c7_witness :
    verification_user_summary "done" = DEFAULT_SUMMARY ∧
    pyIn (verification_user_summary "done")
      (verification_prompt exTask (verification_user_summary "done")) = true :=
  ⟨c7_verification_prompt_contents.2.1 "done" rfl,
   (c7_verification_prompt_contents.1 exTask (verification_user_summary "done")).2.2⟩

end APM
